import Mathlib

/-!
Verification of the greenhouse CO₂ controller (Kamysheva1723/greenHouseNK).

Shallow embedding of the core control logic:
* `Controller.updateControl` — src/controller/controller.cpp, `Controller::updateControl`
* `Controller.valveTimerCallback` — the 2 s one-shot valve auto-close timer callback
* `EEPROMStorage` byte store with `storeCO2Setpoint` / `loadCO2Setpoint`
* `Cloud.applySetpointCommand` — the numeric decision of `Cloud::parseAndPrintSetpoint`
* `CO2Sensor.readSensor` — the bounded-retry CO₂ acquisition loop

Modelling conventions, all taken from the source:
* `configTICK_RATE_HZ` is 1000, so FreeRTOS ticks equal milliseconds and
  `pdMS_TO_TICKS x = x`; ticks are modelled as `ℕ` (monotone, no 32-bit wrap
  within the horizons considered, all far below `2^32` ms).
* `float` values are modelled as `ℚ`: the controller only copies, compares and
  assigns representable constants (0, 100, 1500, 2000, 30000), never rounds.
* All collaborator pointers (sensors, fan, valve, EEPROM) are non-null, as in
  the deployed wiring of `main.cpp` (`setupTask` constructs every driver).
* The armed one-shot timer is the field `valveTimer : Option ℕ` holding its
  expiry tick; `none` is a dormant (stopped or fired) timer.
-/

/-- Controller state: the fields of `class Controller` (controller.h) together
with the valve driver's `valveOpen` flag and the armed state of `valveTimer`. -/
structure CtrlState where
  co2Setpoint : ℚ
  currentCO2 : ℚ
  currentTemp : ℚ
  currentRH : ℚ
  currentPressure : ℚ
  currentFanSpeed : ℚ
  safetyVent : Bool
  valveOpen : Bool
  lastValveCloseTick : ℕ
  valveTimer : Option ℕ
  deriving Repr, DecidableEq

/-- `VALVE_COOLDOWN_MS` from controller.h. -/
def VALVE_COOLDOWN_MS : ℕ := 30000

/-- The valve auto-close timer period: `pdMS_TO_TICKS(2000)` in the
`xTimerCreate` call of the `Controller` constructor. -/
def VALVE_TIMER_PERIOD_MS : ℕ := 2000

namespace Controller

/-- `Controller::updateControl` (controller.cpp lines 88–182), as a pure
function of the current tick `now` (`xTaskGetTickCount()`), the values the
sensor getters return this cycle, and the prior state. -/
def updateControl (now : ℕ) (co2 temp rh pres : ℚ) (s : CtrlState) : CtrlState :=
  -- 1) pull sensor values (all sensor pointers non-null)
  let s := { s with currentCO2 := co2, currentTemp := temp,
                    currentRH := rh, currentPressure := pres }
  -- 2) safety override, with early return
  if s.currentCO2 > 2000 then
    let s := { s with currentFanSpeed := 100, safetyVent := true }
    if s.valveOpen then
      { s with valveOpen := false, lastValveCloseTick := now }
    else
      s
  else
    -- else-branch: fan off while no safety override is latched
    let s := if ¬ s.safetyVent then { s with currentFanSpeed := 0 } else s
    -- clear the latched override once CO₂ is back at or below the setpoint
    let s := if s.safetyVent ∧ s.currentCO2 ≤ s.co2Setpoint then
               { s with currentFanSpeed := 0, safetyVent := false }
             else s
    -- 3) valve control
    let needCO2 := s.currentCO2 < s.co2Setpoint
    if needCO2 then
      if ¬ s.valveOpen then
        if now - s.lastValveCloseTick ≥ VALVE_COOLDOWN_MS then
          -- open the valve; xTimerStop + xTimerStart re-arms the one-shot
          { s with valveOpen := true,
                   valveTimer := some (now + VALVE_TIMER_PERIOD_MS) }
        else
          s
      else
        s
    else
      if s.valveOpen then
        { s with valveOpen := false, lastValveCloseTick := now,
                 valveTimer := none }
      else
        s

/-- `Controller::valveTimerCallback` (controller.cpp lines 71–80), run at the
timer's expiry tick `now`; firing leaves the one-shot timer dormant. -/
def valveTimerCallback (now : ℕ) (s : CtrlState) : CtrlState :=
  if s.valveOpen then
    { s with valveOpen := false, lastValveCloseTick := now, valveTimer := none }
  else
    { s with valveTimer := none }

/-- The FreeRTOS timer service: at tick `e`, a one-shot timer armed with
expiry `e` fires its callback; a dormant or differently-armed timer does not. -/
def fireIfArmed (e : ℕ) (s : CtrlState) : CtrlState :=
  if s.valveTimer = some e then valveTimerCallback e s else s

/-- An event acting on the controller: a periodic `updateControl` call with the
sensor values it reads, or the expiry of the armed valve timer. -/
inductive Event
| update (co2 temp rh pres : ℚ)
| timerFire
deriving Repr, DecidableEq

/-- One event step at tick `now`. -/
def step (now : ℕ) (e : Event) (s : CtrlState) : CtrlState :=
  match e with
  | Event.update co2 temp rh pres => updateControl now co2 temp rh pres s
  | Event.timerFire => valveTimerCallback now s

/-- Run a list of timestamped events in order. -/
def run (evs : List (ℕ × Event)) (s : CtrlState) : CtrlState :=
  evs.foldl (fun s te => step te.1 te.2 s) s

end Controller

/-! ## EEPROM storage (EEPROMStorage.cpp) -/

namespace EEPROMStorage

/-- The EEPROM byte array: address → byte. Hardware reads always return one
byte, so cells are `Fin 256`. -/
def Mem : Type := ℕ → Fin 256

/-- `EEPROMStorage::writeByte` effect on the byte array when the I²C
transaction succeeds (on failure the cell is left as it was). -/
def writeByteMem (mem : Mem) (memAddr : ℕ) (data : Fin 256) : Mem :=
  fun a => if a = memAddr then data else mem a

/-- The most significant byte of a 16-bit value:
`static_cast<uint8_t>(co2ppm >> 8)`. -/
def hiByte (v : ℕ) : Fin 256 := ⟨v / 256 % 256, Nat.mod_lt _ (by norm_num)⟩

/-- The least significant byte of a 16-bit value:
`static_cast<uint8_t>(co2ppm & 0xFF)`. -/
def loByte (v : ℕ) : Fin 256 := ⟨v % 256, Nat.mod_lt _ (by norm_num)⟩

/-- `EEPROMStorage::storeCO2Setpoint` (part_004 lines 84–92): write the high
byte at 0x0000, the low byte at 0x0001; report success of both writes.
`ok1`/`ok2` are the outcomes of the two underlying I²C `writeByte` calls. -/
def storeCO2Setpoint (co2ppm : ℕ) (ok1 ok2 : Bool) (mem : Mem) : Bool × Mem :=
  let mem1 := if ok1 then writeByteMem mem 0 (hiByte co2ppm) else mem
  let mem2 := if ok2 then writeByteMem mem1 1 (loByte co2ppm) else mem1
  (ok1 && ok2, mem2)

/-- `EEPROMStorage::loadCO2Setpoint` (part_004 lines 100–107): read the bytes
at 0x0000/0x0001; on any read failure return the fallback 1000, otherwise
`(data0 << 8) | data1`. `ok1`/`ok2` are the outcomes of the two `readByte`
calls. -/
def loadCO2Setpoint (ok1 ok2 : Bool) (mem : Mem) : ℕ :=
  if ¬ ok1 ∨ ¬ ok2 then 1000
  else (mem 0).val * 256 + (mem 1).val

end EEPROMStorage

/-! ## Controller constructor and setpoint entry point (controller.cpp) -/

namespace Controller

/-- `static_cast<uint16_t>(setpoint)` on a non-negative in-range `float`:
truncation toward zero, i.e. the floor for non-negative values. -/
def floatToUInt16 (x : ℚ) : ℕ := (⌊x⌋).toNat

/-- The `Controller` constructor (controller.cpp lines 22–64) with the EEPROM
present (the deployed wiring): the setpoint is
`static_cast<float>(eepromStorage->loadCO2Setpoint())` — no clamping —
`safetyVent` starts false, the timer is created dormant, the valve driver
starts closed, and `lastValveCloseTick` is set to the construction tick. -/
def init (bootTick : ℕ) (loadedSetpoint : ℕ) : CtrlState :=
  { co2Setpoint := (loadedSetpoint : ℚ)
    currentCO2 := 0
    currentTemp := 0
    currentRH := 0
    currentPressure := 0
    currentFanSpeed := 0
    safetyVent := false
    valveOpen := false
    lastValveCloseTick := bootTick
    valveTimer := none }

/-- `Controller::setCO2Setpoint` (controller.cpp lines 189–195): store the
value verbatim in `co2Setpoint` and issue a persistence write of
`static_cast<uint16_t>(setpoint)`; the second component is the value handed
to `eepromStorage->storeCO2Setpoint`. -/
def setCO2Setpoint (setpoint : ℚ) (s : CtrlState) : CtrlState × ℕ :=
  ({ s with co2Setpoint := setpoint }, floatToUInt16 setpoint)

end Controller

/-! ## Remote command path (cloud.cpp) -/

namespace Cloud

/-- The decision core of `Cloud::parseAndPrintSetpoint` (cloud.cpp lines
132–140), applied to the parsed numeric value: out-of-range values are
discarded with a warning (no controller call); in-range values go to
`Controller::setCO2Setpoint`. The second component is the persistence write
issued (`none` when the command is discarded). -/
def applySetpointCommand (newSetpoint : ℚ) (s : CtrlState) :
    CtrlState × Option ℕ :=
  if newSetpoint ≤ 0 ∨ newSetpoint > 1500 then
    (s, none)
  else
    let r := Controller.setCO2Setpoint newSetpoint s
    (r.1, some r.2)

end Cloud

/-! ## Local UI setpoint paths (ui.cpp) -/

namespace UI

/-- The UI-local state relevant to the setpoint: the pending local value and
the edit-mode flag. -/
structure UIState where
  localSetpoint : ℚ
  editing : Bool
  deriving Repr, DecidableEq

/-- `UI::onEncoderTurn` (ui.cpp lines 78–86): in edit mode, move the pending
setpoint by ±10 per detent and clamp to `[0, 1500]`. -/
def onEncoderTurn (delta : ℤ) (u : UIState) : UIState :=
  if u.editing then
    let sp := u.localSetpoint + (delta : ℚ) * 10
    let sp := if sp < 0 then 0 else sp
    let sp := if sp > 1500 then 1500 else sp
    { u with localSetpoint := sp }
  else
    u

/-- `UI::setLocalSetpoint` (ui.cpp lines 115–119): the raw setter clamps only
to `[0, 3000]`. -/
def setLocalSetpoint (sp : ℚ) (u : UIState) : UIState :=
  let sp := if sp < 0 then 0 else sp
  let sp := if sp > 3000 then 3000 else sp
  { u with localSetpoint := sp }

/-- The commit in `UI::onButtonPress` (ui.cpp lines 100–110), past the
debounce: toggle edit mode; on exiting edit mode, push the pending value into
`Controller::setCO2Setpoint` (which also issues the persistence write,
returned as the third component). -/
def onButtonPress (u : UIState) (s : CtrlState) :
    UIState × CtrlState × Option ℕ :=
  let u2 : UIState := { u with editing := ¬ u.editing }
  if ¬ u2.editing then
    let r := Controller.setCO2Setpoint u.localSetpoint s
    (u2, r.1, some r.2)
  else
    (u2, s, none)

end UI

/-! ## CO₂ sensor acquisition (CO2Sensor.cpp) -/

namespace CO2Sensor

/-- The register values the transport would deliver on one attempt of the
retry loop: device status, CO₂ status, raw measurement. -/
structure Attempt where
  devStatus : ℕ
  co2Status : ℕ
  raw : ℕ
  deriving Repr, DecidableEq

/-- `maxAttempts` in `CO2Sensor::readSensor`. -/
def maxAttempts : ℕ := 10

/-- An attempt is accepted when both the device status and the CO₂ status
read as zero. -/
def attemptOK (a : Attempt) : Bool := a.devStatus == 0 && a.co2Status == 0

/-- Index of the first accepted attempt within the bounded retry loop of
`CO2Sensor::readSensor` (CO2Sensor.cpp lines 62–106), given the per-attempt
register values `regs`. -/
def firstOK (regs : ℕ → Attempt) : Option ℕ :=
  (List.range maxAttempts).find? (fun i => attemptOK (regs i))

/-- Number of loop iterations executed: the accepting attempt ends the loop
via `break`; otherwise all `maxAttempts` iterations run. -/
def attemptsMade (regs : ℕ → Attempt) : ℕ :=
  match firstOK regs with
  | some i => i + 1
  | none => maxAttempts

/-- One register read performed by the loop body. -/
inductive RegRead
| dev (v : ℕ)
| co2st (v : ℕ)
| raw (v : ℕ)
deriving Repr, DecidableEq

/-- The sequence of register reads `readSensor` performs: every executed
iteration reads the device status, the CO₂ status, and then always the raw
measurement register (lines 63–94), regardless of the status flags. -/
def readTrace (regs : ℕ → Attempt) : List RegRead :=
  (List.range (attemptsMade regs)).flatMap
    (fun i => [RegRead.dev (regs i).devStatus,
               RegRead.co2st (regs i).co2Status,
               RegRead.raw (regs i).raw])

/-- `CO2Sensor::readSensor` (CO2Sensor.cpp lines 56–121) as a function of the
per-attempt register values and the stored `co2ppm_` before the call: returns
the success flag and the stored `co2ppm_` after the call. -/
def readSensor (regs : ℕ → Attempt) (prevCO2ppm : ℚ) : Bool × ℚ :=
  match firstOK regs with
  | some i => (true, ((regs i).raw : ℚ))
  | none => (false, prevCO2ppm)

end CO2Sensor

/-! ## Theorems -/

/-- C1: if, after pulling sensor values, `updateControl` sees
`currentCO2 > 2000`, then on return the fan is commanded to 100 %,
`safetyVent` is set, the valve is closed (recording `lastValveCloseTick = now`
exactly when it was open), and none of the valve-open logic runs: the timer is
left untouched and the function returns early — regardless of the setpoint or
prior valve state. -/
theorem C1_safety_override_precedence
    (now : ℕ) (co2 temp rh pres : ℚ) (s : CtrlState) (hco2 : co2 > 2000) :
    (Controller.updateControl now co2 temp rh pres s).currentFanSpeed = 100 ∧
    (Controller.updateControl now co2 temp rh pres s).safetyVent = true ∧
    (Controller.updateControl now co2 temp rh pres s).valveOpen = false ∧
    (s.valveOpen = true →
      (Controller.updateControl now co2 temp rh pres s).lastValveCloseTick = now) ∧
    (s.valveOpen = false →
      (Controller.updateControl now co2 temp rh pres s).lastValveCloseTick
        = s.lastValveCloseTick) ∧
    (Controller.updateControl now co2 temp rh pres s).valveTimer = s.valveTimer := by
  cases hv : s.valveOpen <;>
    simp [Controller.updateControl, hv, hco2]

/-- Witness for C1 at a concrete input: CO₂ = 2100, valve previously open. -/
theorem C1_safety_override_precedence_witness :
    (2100 : ℚ) > 2000 ∧
    ((Controller.updateControl 7 2100 21 45 1000
        ⟨1500, 0, 0, 0, 0, 0, false, true, 3, some 2000⟩).currentFanSpeed = 100 ∧
     (Controller.updateControl 7 2100 21 45 1000
        ⟨1500, 0, 0, 0, 0, 0, false, true, 3, some 2000⟩).safetyVent = true ∧
     (Controller.updateControl 7 2100 21 45 1000
        ⟨1500, 0, 0, 0, 0, 0, false, true, 3, some 2000⟩).valveOpen = false ∧
     ((⟨1500, 0, 0, 0, 0, 0, false, true, 3, some 2000⟩ : CtrlState).valveOpen = true →
       (Controller.updateControl 7 2100 21 45 1000
          ⟨1500, 0, 0, 0, 0, 0, false, true, 3, some 2000⟩).lastValveCloseTick = 7) ∧
     ((⟨1500, 0, 0, 0, 0, 0, false, true, 3, some 2000⟩ : CtrlState).valveOpen = false →
       (Controller.updateControl 7 2100 21 45 1000
          ⟨1500, 0, 0, 0, 0, 0, false, true, 3, some 2000⟩).lastValveCloseTick = 3) ∧
     (Controller.updateControl 7 2100 21 45 1000
        ⟨1500, 0, 0, 0, 0, 0, false, true, 3, some 2000⟩).valveTimer = some 2000) :=
  ⟨by norm_num,
   C1_safety_override_precedence 7 2100 21 45 1000
     ⟨1500, 0, 0, 0, 0, 0, false, true, 3, some 2000⟩ (by norm_num)⟩

/-- C3: `lastValveCloseTick` is initialized to the construction tick, so the
first opening after boot is NOT exempt from the 30 s cooldown: with the valve
never opened or closed and CO₂ = 800 below the setpoint 1500, the update at
tick 500 leaves the valve closed (cooldown measured from boot), and only an
update at tick ≥ 30000 opens it. This contradicts the bypass the spec claims
and the constructor comment "so that the valve can be opened immediately on
startup if required" (controller.cpp line 62). -/
theorem C3_first_open_not_exempt_from_cooldown :
    (Controller.init 0 1500).valveOpen = false ∧
    ((800 : ℚ) < ((1500 : ℕ) : ℚ)) ∧
    (Controller.updateControl 500 800 21 45 1000
       (Controller.init 0 1500)).valveOpen = false ∧
    (Controller.updateControl 29999 800 21 45 1000
       (Controller.init 0 1500)).valveOpen = false ∧
    (Controller.updateControl 30000 800 21 45 1000
       (Controller.init 0 1500)).valveOpen = true := by
  refine ⟨rfl, by norm_num, ?_, ?_, ?_⟩ <;>
    simp [Controller.updateControl, Controller.init, VALVE_COOLDOWN_MS] <;>
    norm_num

/-- C7: the remote-command path discards `SETPOINT=x` for `x ≤ 0` or
`x > 1500` without touching the controller; for `x ∈ (0, 1500]` it sets
`co2Setpoint = x` and issues a persistence write of the setpoint. -/
theorem C7_remote_setpoint_bounds (x : ℚ) (s : CtrlState) :
    (x ≤ 0 ∨ x > 1500 → Cloud.applySetpointCommand x s = (s, none)) ∧
    (0 < x → x ≤ 1500 →
      (Cloud.applySetpointCommand x s).1.co2Setpoint = x ∧
      (Cloud.applySetpointCommand x s).2 = some (Controller.floatToUInt16 x)) := by
  constructor
  · intro h
    simp [Cloud.applySetpointCommand, h]
  · intro h1 h2
    have h : ¬ (x ≤ 0 ∨ x > 1500) := by
      push_neg
      exact ⟨h1, h2⟩
    simp [Cloud.applySetpointCommand, h, Controller.setCO2Setpoint]

/-- Witness for C7: a rejected command at 2000 and an accepted one at 1200. -/
theorem C7_remote_setpoint_bounds_witness :
    ((2000 : ℚ) ≤ 0 ∨ (2000 : ℚ) > 1500) ∧
    Cloud.applySetpointCommand 2000 (Controller.init 0 800)
      = (Controller.init 0 800, none) ∧
    (0 < (1200 : ℚ)) ∧ ((1200 : ℚ) ≤ 1500) ∧
    (Cloud.applySetpointCommand 1200 (Controller.init 0 800)).1.co2Setpoint = 1200 ∧
    (Cloud.applySetpointCommand 1200 (Controller.init 0 800)).2
      = some (Controller.floatToUInt16 1200) :=
  ⟨Or.inr (by norm_num),
   (C7_remote_setpoint_bounds 2000 (Controller.init 0 800)).1 (Or.inr (by norm_num)),
   by norm_num, by norm_num,
   ((C7_remote_setpoint_bounds 1200 (Controller.init 0 800)).2
      (by norm_num) (by norm_num)).1,
   ((C7_remote_setpoint_bounds 1200 (Controller.init 0 800)).2
      (by norm_num) (by norm_num)).2⟩

/-- Helper: a successful two-byte store followed by a successful load
recovers the stored 16-bit value. -/
theorem eeprom_store_load_roundtrip (v : ℕ) (mem : EEPROMStorage.Mem)
    (hv : v < 65536) :
    EEPROMStorage.loadCO2Setpoint true true
      (EEPROMStorage.storeCO2Setpoint v true true mem).2 = v := by
  have hdiv : v / 256 < 256 := Nat.div_lt_of_lt_mul hv
  simp [EEPROMStorage.loadCO2Setpoint, EEPROMStorage.storeCO2Setpoint,
        EEPROMStorage.writeByteMem, EEPROMStorage.hiByte, EEPROMStorage.loByte,
        Nat.mod_eq_of_lt hdiv]
  omega

/-- C9: the setpoint persists as two big-endian bytes at 0x0000/0x0001; a
successful store of any 16-bit value followed by a successful load returns
the same value, and a load with any failed byte read returns the fallback
1000. -/
theorem C9_setpoint_persistence_roundtrip (v : ℕ) (mem : EEPROMStorage.Mem)
    (hv : v < 65536) :
    (EEPROMStorage.storeCO2Setpoint v true true mem).1 = true ∧
    EEPROMStorage.loadCO2Setpoint true true
      (EEPROMStorage.storeCO2Setpoint v true true mem).2 = v ∧
    (∀ (ok1 ok2 : Bool) (mem2 : EEPROMStorage.Mem), ok1 = false ∨ ok2 = false →
      EEPROMStorage.loadCO2Setpoint ok1 ok2 mem2 = 1000) := by
  refine ⟨rfl, eeprom_store_load_roundtrip v mem hv, ?_⟩
  intro ok1 ok2 mem2 h
  rcases h with h | h <;> simp [EEPROMStorage.loadCO2Setpoint, h]

/-- Shared example memory: an EEPROM whose every byte reads 0xAB. -/
def memAB : EEPROMStorage.Mem := fun _ => ⟨0xAB, by norm_num⟩

/-- Witness for C9 at v = 1234 on the 0xAB-filled memory. -/
theorem C9_setpoint_persistence_roundtrip_witness :
    (1234 : ℕ) < 65536 ∧
    ((EEPROMStorage.storeCO2Setpoint 1234 true true memAB).1 = true ∧
     EEPROMStorage.loadCO2Setpoint true true
       (EEPROMStorage.storeCO2Setpoint 1234 true true memAB).2 = 1234 ∧
     (∀ (ok1 ok2 : Bool) (mem2 : EEPROMStorage.Mem), ok1 = false ∨ ok2 = false →
       EEPROMStorage.loadCO2Setpoint ok1 ok2 mem2 = 1000)) :=
  ⟨by norm_num, C9_setpoint_persistence_roundtrip 1234 memAB (by norm_num)⟩


/-- C10: `setCO2Setpoint(v)` keeps the exact value in memory but persists
`static_cast<uint16_t>(v)`, i.e. the floor of a positive non-integer `v`; the
persisted value therefore differs from the in-memory one, and a reboot
(constructor load) restores the truncated value, not `v`. -/
theorem C10_setpoint_truncated_for_persistence
    (v : ℚ) (s : CtrlState) (mem : EEPROMStorage.Mem) (boot : ℕ)
    (h0 : 0 < v) (h1 : v ≤ 1500) (hnint : ∀ n : ℤ, v ≠ (n : ℚ)) :
    (Controller.setCO2Setpoint v s).1.co2Setpoint = v ∧
    (Controller.setCO2Setpoint v s).2 = (⌊v⌋).toNat ∧
    (((Controller.setCO2Setpoint v s).2 : ℚ) ≠ v) ∧
    (Controller.init boot
       (EEPROMStorage.loadCO2Setpoint true true
         (EEPROMStorage.storeCO2Setpoint (Controller.setCO2Setpoint v s).2
            true true mem).2)).co2Setpoint = ((⌊v⌋).toNat : ℚ) := by
  have hfloor0 : (0 : ℤ) ≤ ⌊v⌋ := Int.floor_nonneg.mpr (le_of_lt h0)
  have hcast : (((⌊v⌋).toNat : ℕ) : ℚ) = ((⌊v⌋ : ℤ) : ℚ) := by
    exact_mod_cast congrArg (fun n : ℤ => (n : ℚ)) (Int.toNat_of_nonneg hfloor0)
  simp only [Controller.setCO2Setpoint, Controller.floatToUInt16]
  refine ⟨trivial, trivial, ?_, ?_⟩
  · intro hEq
    rw [hcast] at hEq
    exact hnint ⌊v⌋ hEq.symm
  · have hle : ⌊v⌋ ≤ 1500 := by
      have h := Int.floor_le_floor (α := ℚ) h1
      simpa using h
    have hlt : (⌊v⌋).toNat < 65536 := by omega
    rw [eeprom_store_load_roundtrip _ mem hlt]
    rfl

/-- Witness for C10 at v = 1234.5 = 2469/2. -/
theorem C10_setpoint_truncated_for_persistence_witness :
    (0 : ℚ) < 2469 / 2 ∧ (2469 / 2 : ℚ) ≤ 1500 ∧
    (∀ n : ℤ, (2469 / 2 : ℚ) ≠ (n : ℚ)) ∧
    ((Controller.setCO2Setpoint (2469 / 2) (Controller.init 0 1500)).1.co2Setpoint
        = 2469 / 2 ∧
     (Controller.setCO2Setpoint (2469 / 2) (Controller.init 0 1500)).2
        = (⌊(2469 / 2 : ℚ)⌋).toNat ∧
     (((Controller.setCO2Setpoint (2469 / 2) (Controller.init 0 1500)).2 : ℚ)
        ≠ 2469 / 2) ∧
     (Controller.init 3
        (EEPROMStorage.loadCO2Setpoint true true
          (EEPROMStorage.storeCO2Setpoint
             (Controller.setCO2Setpoint (2469 / 2) (Controller.init 0 1500)).2
             true true memAB).2)).co2Setpoint
        = ((⌊(2469 / 2 : ℚ)⌋).toNat : ℚ)) :=
  ⟨by norm_num, by norm_num,
   by
     intro n hn
     rw [div_eq_iff (by norm_num)] at hn
     have h2 : (2469 : ℤ) = n * 2 := by exact_mod_cast hn
     omega,
   C10_setpoint_truncated_for_persistence (2469 / 2) (Controller.init 0 1500)
     memAB 3 (by norm_num) (by norm_num)
     (by
       intro n hn
       rw [div_eq_iff (by norm_num)] at hn
       have h2 : (2469 : ℤ) = n * 2 := by exact_mod_cast hn
       omega)⟩

/-- An EEPROM whose every byte reads 0xFF (e.g. an erased/untouched part). -/
def memFF : EEPROMStorage.Mem := fun _ => ⟨0xFF, by norm_num⟩

/-- C2 counterexample: the constructor load path applies no clamp, so with
stored bytes 0xFF 0xFF the loaded setpoint is 65535 and the freshly
constructed controller has `co2Setpoint = 65535 ∉ [0, 1500]`. -/
theorem C2_counterexample_unclamped_constructor_load :
    EEPROMStorage.loadCO2Setpoint true true memFF = 65535 ∧
    (Controller.init 0
       (EEPROMStorage.loadCO2Setpoint true true memFF)).co2Setpoint = 65535 ∧
    ¬ ((Controller.init 0
       (EEPROMStorage.loadCO2Setpoint true true memFF)).co2Setpoint ≤ 1500) := by
  have h : EEPROMStorage.loadCO2Setpoint true true memFF = 65535 := by
    decide
  refine ⟨h, ?_, ?_⟩
  · rw [h]
    norm_num [Controller.init]
  · rw [h]
    norm_num [Controller.init]

/-- C2 amended: the remote-command path rejects values outside `(0, 1500]`
and the UI rotary-edit path clamps to `[0, 1500]`, but the constructor load
applies no clamp at all: `co2Setpoint` after construction equals whatever
16-bit value the storage returned, so the `[0, 1500]` invariant does not hold
in every reachable state. -/
theorem C2_amended_setpoint_bounds :
    (∀ (x : ℚ) (s : CtrlState), x ≤ 0 ∨ x > 1500 →
       Cloud.applySetpointCommand x s = (s, none)) ∧
    (∀ (delta : ℤ) (u : UI.UIState), u.editing = true →
       0 ≤ (UI.onEncoderTurn delta u).localSetpoint ∧
       (UI.onEncoderTurn delta u).localSetpoint ≤ 1500) ∧
    (∀ (boot loaded : ℕ),
       (Controller.init boot loaded).co2Setpoint = (loaded : ℚ)) := by
  refine ⟨?_, ?_, fun boot loaded => rfl⟩
  · intro x s h
    simp [Cloud.applySetpointCommand, h]
  · intro delta u hedit
    simp only [UI.onEncoderTurn, hedit, if_true]
    split_ifs <;> constructor <;> linarith

/-- Witness for C2-amended: rejection at 5000, clamping at 1490 + one detent,
and a verbatim load of 65535. -/
theorem C2_amended_setpoint_bounds_witness :
    (((5000 : ℚ) ≤ 0 ∨ (5000 : ℚ) > 1500) ∧
      Cloud.applySetpointCommand 5000 (Controller.init 0 1000)
        = (Controller.init 0 1000, none)) ∧
    ((⟨1490, true⟩ : UI.UIState).editing = true ∧
      0 ≤ (UI.onEncoderTurn 7 ⟨1490, true⟩).localSetpoint ∧
      (UI.onEncoderTurn 7 ⟨1490, true⟩).localSetpoint ≤ 1500) ∧
    (Controller.init 0 65535).co2Setpoint = ((65535 : ℕ) : ℚ) :=
  ⟨⟨Or.inr (by norm_num),
    C2_amended_setpoint_bounds.1 5000 (Controller.init 0 1000)
      (Or.inr (by norm_num))⟩,
   ⟨rfl, C2_amended_setpoint_bounds.2.1 7 ⟨1490, true⟩ rfl⟩,
   C2_amended_setpoint_bounds.2.2 0 65535⟩

/-- Helper: any single event at a tick inside the cooldown window keeps the
valve closed and leaves the recorded closing tick untouched. -/
theorem step_keeps_closed_in_cooldown (t T : ℕ) (e : Controller.Event)
    (s : CtrlState) (hclosed : s.valveOpen = false)
    (hlast : s.lastValveCloseTick = T)
    (ht1 : T ≤ t) (ht2 : t < T + VALVE_COOLDOWN_MS) :
    (Controller.step t e s).valveOpen = false ∧
    (Controller.step t e s).lastValveCloseTick = T := by
  cases e with
  | timerFire =>
      simp [Controller.step, Controller.valveTimerCallback, hclosed, hlast]
  | update co2 temp rh pres =>
      have hcool : ¬ (VALVE_COOLDOWN_MS ≤ t - T) := by
        simp only [VALVE_COOLDOWN_MS] at ht2 ⊢
        omega
      simp only [Controller.step, Controller.updateControl, hclosed, hlast]
      split_ifs <;> simp_all

/-- C5: if the valve was closed with `lastValveCloseTick = T`, then across any
events (update calls with arbitrary sensor values, timer expiries) whose ticks
all lie in `[T, T + 30000)`, the valve is never re-opened — even while
`needCO2` holds. -/
theorem C5_valve_cooldown_blocks_reopen (T : ℕ)
    (evs : List (ℕ × Controller.Event)) (s : CtrlState)
    (hclosed : s.valveOpen = false) (hlast : s.lastValveCloseTick = T)
    (hticks : ∀ te ∈ evs, T ≤ te.1 ∧ te.1 < T + VALVE_COOLDOWN_MS) :
    (Controller.run evs s).valveOpen = false := by
  induction evs generalizing s with
  | nil => simpa [Controller.run] using hclosed
  | cons te rest ih =>
      obtain ⟨h1, h2⟩ := hticks te (List.mem_cons_self te rest)
      have hstep := step_keeps_closed_in_cooldown te.1 T te.2 s hclosed hlast h1 h2
      have hrest := ih (Controller.step te.1 te.2 s) hstep.1 hstep.2
        (fun te' h' => hticks te' (List.mem_cons_of_mem te h'))
      simpa [Controller.run] using hrest

/-- A closed, cooling-down controller state used by the C5 witness:
valve closed at tick 100 while CO₂ (400) is far below the setpoint (1000). -/
def coolingState : CtrlState :=
  ⟨1000, 400, 21, 45, 1000, 0, false, false, 100, none⟩

/-- Events for the C5 witness: needy updates at ticks 600, 15100 and 30099,
plus a stray timer expiry, all within the 30 s window after tick 100. -/
def coolingEvents : List (ℕ × Controller.Event) :=
  [(600, Controller.Event.update 400 21 45 1000),
   (15100, Controller.Event.timerFire),
   (15100, Controller.Event.update 700 22 44 1000),
   (30099, Controller.Event.update 999 22 44 1000)]

/-- Witness for C5: the window `[100, 30100)` keeps the valve closed. -/
theorem C5_valve_cooldown_blocks_reopen_witness :
    coolingState.valveOpen = false ∧
    coolingState.lastValveCloseTick = 100 ∧
    (∀ te ∈ coolingEvents, 100 ≤ te.1 ∧ te.1 < 100 + VALVE_COOLDOWN_MS) ∧
    (Controller.run coolingEvents coolingState).valveOpen = false :=
  ⟨rfl, rfl, by decide,
   C5_valve_cooldown_blocks_reopen 100 coolingEvents coolingState rfl rfl
     (by decide)⟩

/-- Helper: `updateControl` never writes the setpoint. -/
theorem updateControl_keeps_setpoint (now : ℕ) (co2 temp rh pres : ℚ)
    (s : CtrlState) :
    (Controller.updateControl now co2 temp rh pres s).co2Setpoint
      = s.co2Setpoint := by
  simp only [Controller.updateControl]
  split_ifs <;> rfl

/-- Helper: an update whose CO₂ reading stays in `(co2Setpoint, 2000]` leaves
a latched safety override and its 100 % fan command in place. -/
theorem update_in_band_keeps_override (now : ℕ) (co2 temp rh pres : ℚ)
    (s : CtrlState) (hvent : s.safetyVent = true)
    (hfan : s.currentFanSpeed = 100)
    (hlo : s.co2Setpoint < co2) (hhi : co2 ≤ 2000) :
    (Controller.updateControl now co2 temp rh pres s).safetyVent = true ∧
    (Controller.updateControl now co2 temp rh pres s).currentFanSpeed = 100 ∧
    (Controller.updateControl now co2 temp rh pres s).co2Setpoint
      = s.co2Setpoint := by
  have hn2000 : ¬ ((co2 : ℚ) > 2000) := not_lt.mpr hhi
  have hnclear : ¬ ((co2 : ℚ) ≤ s.co2Setpoint) := not_le.mpr hlo
  simp only [Controller.updateControl, hvent]
  split_ifs <;> simp_all

/-- C6: once the safety override is latched (fan at 100 %), any sequence of
update calls whose CO₂ readings stay in `(co2Setpoint, 2000]` keeps the
override active and the fan command at 100 %; and (for a setpoint at or below
the 2000 threshold) an update clears the override exactly when its CO₂
reading is at or below the setpoint, commanding the fan to 0 % then. -/
theorem C6_safety_override_hysteresis :
    (∀ (evs : List (ℕ × Controller.Event)) (s : CtrlState),
      s.safetyVent = true → s.currentFanSpeed = 100 →
      (∀ te ∈ evs, ∃ co2 temp rh pres,
        te.2 = Controller.Event.update co2 temp rh pres ∧
        s.co2Setpoint < co2 ∧ co2 ≤ 2000) →
      (Controller.run evs s).safetyVent = true ∧
      (Controller.run evs s).currentFanSpeed = 100) ∧
    (∀ (now : ℕ) (co2 temp rh pres : ℚ) (s : CtrlState),
      s.safetyVent = true → s.co2Setpoint ≤ 2000 →
      (((Controller.updateControl now co2 temp rh pres s).safetyVent = false)
          ↔ co2 ≤ s.co2Setpoint) ∧
      (co2 ≤ s.co2Setpoint →
        (Controller.updateControl now co2 temp rh pres s).currentFanSpeed = 0)) := by
  constructor
  · intro evs
    induction evs with
    | nil =>
        intro s hvent hfan _
        exact ⟨by simpa [Controller.run] using hvent,
               by simpa [Controller.run] using hfan⟩
    | cons te rest ih =>
        intro s hvent hfan hband
        obtain ⟨co2, temp, rh, pres, hev, hlo, hhi⟩ :=
          hband te (List.mem_cons_self te rest)
        have hkeep := update_in_band_keeps_override te.1 co2 temp rh pres s
          hvent hfan hlo hhi
        have hstep : Controller.step te.1 te.2 s
            = Controller.updateControl te.1 co2 temp rh pres s := by
          rw [hev]
          rfl
        have hrest := ih (Controller.step te.1 te.2 s)
          (by rw [hstep]; exact hkeep.1) (by rw [hstep]; exact hkeep.2.1)
          (by
            intro te' h'
            obtain ⟨c, t, r, p, hev', hlo', hhi'⟩ :=
              hband te' (List.mem_cons_of_mem te h')
            refine ⟨c, t, r, p, hev', ?_, hhi'⟩
            rw [hstep, updateControl_keeps_setpoint]
            exact hlo')
        simpa [Controller.run] using hrest
  · intro now co2 temp rh pres s hvent hsp
    by_cases hco2 : (co2 : ℚ) > 2000
    · have hns : ¬ (co2 ≤ s.co2Setpoint) := by linarith
      cases hv : s.valveOpen <;>
        simp [Controller.updateControl, hco2, hv, hns]
    · by_cases hc : (co2 : ℚ) ≤ s.co2Setpoint
      · simp only [Controller.updateControl, hvent]
        split_ifs <;> simp_all
      · simp only [Controller.updateControl, hvent]
        split_ifs <;> simp_all

/-- A latched-override state for the C6 witness: setpoint 1500, override
active, fan at 100 %. -/
def hystState : CtrlState :=
  ⟨1500, 2100, 20, 40, 1000, 100, true, false, 0, none⟩

/-- Updates for the C6 witness whose CO₂ readings stay in `(1500, 2000]`. -/
def hystEvents : List (ℕ × Controller.Event) :=
  [(1000, Controller.Event.update 1800 21 45 1000),
   (2000, Controller.Event.update 1999 21 45 1000)]

/-- Witness for C6: the override and the 100 % fan survive the in-band
updates, and an update at CO₂ = 1200 ≤ 1500 clears them. -/
theorem C6_safety_override_hysteresis_witness :
    (hystState.safetyVent = true ∧ hystState.currentFanSpeed = 100 ∧
     (∀ te ∈ hystEvents, ∃ co2 temp rh pres,
        te.2 = Controller.Event.update co2 temp rh pres ∧
        hystState.co2Setpoint < co2 ∧ co2 ≤ 2000) ∧
     (Controller.run hystEvents hystState).safetyVent = true ∧
     (Controller.run hystEvents hystState).currentFanSpeed = 100) ∧
    (hystState.safetyVent = true ∧ hystState.co2Setpoint ≤ 2000 ∧
     (((Controller.updateControl 3000 1200 21 45 1000 hystState).safetyVent
         = false) ↔ (1200 : ℚ) ≤ hystState.co2Setpoint) ∧
     ((1200 : ℚ) ≤ hystState.co2Setpoint →
       (Controller.updateControl 3000 1200 21 45 1000 hystState).currentFanSpeed
         = 0)) := by
  have hband : ∀ te ∈ hystEvents, ∃ co2 temp rh pres,
      te.2 = Controller.Event.update co2 temp rh pres ∧
      hystState.co2Setpoint < co2 ∧ co2 ≤ 2000 := by
    intro te h
    simp only [hystEvents, List.mem_cons, List.not_mem_nil, or_false] at h
    rcases h with h | h <;> subst h
    · exact ⟨1800, 21, 45, 1000, rfl, by norm_num [hystState], by norm_num⟩
    · exact ⟨1999, 21, 45, 1000, rfl, by norm_num [hystState], by norm_num⟩
  have h1 := C6_safety_override_hysteresis.1 hystEvents hystState rfl rfl hband
  have h2 := C6_safety_override_hysteresis.2 3000 1200 21 45 1000 hystState rfl
    (by norm_num [hystState])
  exact ⟨⟨rfl, rfl, hband, h1.1, h1.2⟩,
         ⟨rfl, by norm_num [hystState], h2.1, h2.2⟩⟩

/-- The invariant carried between an opening at `T` and the deadline
`D = T + 2000`: while open, the one-shot timer is armed for `D`; once closed,
the 30 s cooldown from the recorded closing tick extends beyond `D`, so no
re-opening (which would re-arm the timer past `D`) can happen by `D`. -/
def deadlineInv (D : ℕ) (s : CtrlState) : Prop :=
  (s.valveOpen = true → s.valveTimer = some D) ∧
  (s.valveOpen = false → D < s.lastValveCloseTick + VALVE_COOLDOWN_MS)

/-- Helper: every event at a tick in `[D - 2000, D]` preserves the deadline
invariant. -/
theorem step_keeps_deadlineInv (t D : ℕ) (e : Controller.Event) (s : CtrlState)
    (h : deadlineInv D s)
    (ht1 : D ≤ t + VALVE_TIMER_PERIOD_MS) (ht2 : t ≤ D) :
    deadlineInv D (Controller.step t e s) := by
  obtain ⟨hOpen, hClosed⟩ := h
  simp only [VALVE_TIMER_PERIOD_MS] at ht1
  cases e with
  | timerFire =>
      cases hv : s.valveOpen with
      | false =>
          refine ⟨?_, ?_⟩ <;>
            simp only [Controller.step, Controller.valveTimerCallback, hv] <;>
            simp_all [VALVE_COOLDOWN_MS]
      | true =>
          constructor <;> intro hv <;>
            first
            | (simp_all [Controller.step, Controller.valveTimerCallback,
                         VALVE_COOLDOWN_MS]
               omega)
            | simp_all [Controller.step, Controller.valveTimerCallback,
                        VALVE_COOLDOWN_MS]
  | update co2 temp rh pres =>
      cases hvO : s.valveOpen with
      | false =>
          have hc : D < s.lastValveCloseTick + VALVE_COOLDOWN_MS := hClosed hvO
          simp only [VALVE_COOLDOWN_MS] at hc
          simp only [Controller.step, Controller.updateControl, hvO]
          split_ifs <;> constructor <;> intro hv <;>
            simp_all [VALVE_COOLDOWN_MS, VALVE_TIMER_PERIOD_MS] <;> omega
      | true =>
          have ht : s.valveTimer = some D := hOpen hvO
          simp only [Controller.step, Controller.updateControl, hvO]
          split_ifs <;> constructor <;> intro hv <;>
            simp_all [VALVE_COOLDOWN_MS, VALVE_TIMER_PERIOD_MS] <;> omega

/-- Helper: the deadline invariant survives any event trace whose ticks stay
in `[D - 2000, D]`. -/
theorem run_keeps_deadlineInv (D : ℕ) (evs : List (ℕ × Controller.Event))
    (s : CtrlState) (h : deadlineInv D s)
    (hticks : ∀ te ∈ evs, D ≤ te.1 + VALVE_TIMER_PERIOD_MS ∧ te.1 ≤ D) :
    deadlineInv D (Controller.run evs s) := by
  induction evs generalizing s with
  | nil => simpa [Controller.run] using h
  | cons te rest ih =>
      obtain ⟨h1, h2⟩ := hticks te (List.mem_cons_self te rest)
      have hstep := step_keeps_deadlineInv te.1 D te.2 s h h1 h2
      have hrest := ih (Controller.step te.1 te.2 s) hstep
        (fun te' h' => hticks te' (List.mem_cons_of_mem te h'))
      simpa [Controller.run] using hrest

/-- C4: opening the valve (re)arms the one-shot timer for 2000 ms later; and
from any state just opened at `T` (timer armed for `T + 2000`), after any
events in `[T, T + 2000]` — update calls with arbitrary sensor values, timer
expiries — the timer service's firing at `T + 2000` leaves the valve closed:
the valve is closed no later than 2000 ms after opening. -/
theorem C4_valve_closed_by_deadline :
    (∀ (now : ℕ) (co2 temp rh pres : ℚ) (s : CtrlState),
      s.valveOpen = false →
      (Controller.updateControl now co2 temp rh pres s).valveOpen = true →
      (Controller.updateControl now co2 temp rh pres s).valveTimer
        = some (now + VALVE_TIMER_PERIOD_MS)) ∧
    (∀ (T : ℕ) (evs : List (ℕ × Controller.Event)) (s : CtrlState),
      s.valveOpen = true →
      s.valveTimer = some (T + VALVE_TIMER_PERIOD_MS) →
      (∀ te ∈ evs, T ≤ te.1 ∧ te.1 ≤ T + VALVE_TIMER_PERIOD_MS) →
      (Controller.fireIfArmed (T + VALVE_TIMER_PERIOD_MS)
        (Controller.run evs s)).valveOpen = false) := by
  constructor
  · intro now co2 temp rh pres s hclosed hopen
    simp only [Controller.updateControl] at hopen ⊢
    split_ifs at hopen ⊢ <;> simp_all
  · intro T evs s hopen htimer hticks
    have hInv : deadlineInv (T + VALVE_TIMER_PERIOD_MS) s := by
      refine ⟨fun _ => htimer, fun hc => ?_⟩
      rw [hc] at hopen
      exact absurd hopen (by simp)
    have hrun := run_keeps_deadlineInv (T + VALVE_TIMER_PERIOD_MS) evs s hInv
      (by
        intro te h
        obtain ⟨ha, hb⟩ := hticks te h
        exact ⟨by omega, hb⟩)
    cases hv : (Controller.run evs s).valveOpen with
    | false =>
        simp only [Controller.fireIfArmed, Controller.valveTimerCallback, hv]
        split_ifs <;> simp_all
    | true =>
        have ht := hrun.1 hv
        simp [Controller.fireIfArmed, Controller.valveTimerCallback, ht, hv]

/-- A just-opened state for the C4 witness: valve opened at tick 50000 with
the auto-close timer armed for 52000. -/
def openedState : CtrlState :=
  ⟨1000, 400, 21, 45, 1000, 0, false, true, 10000, some 52000⟩

/-- A closed state with the cooldown long expired, for the arming half of the
C4 witness. -/
def rearmState : CtrlState :=
  ⟨1000, 400, 21, 45, 1000, 0, false, false, 0, none⟩

/-- Events for the C4 witness inside the window `[50000, 52000]`. -/
def openedEvents : List (ℕ × Controller.Event) :=
  [(50500, Controller.Event.update 600 21 45 1000),
   (51000, Controller.Event.update 1200 21 45 1000),
   (51500, Controller.Event.update 400 21 45 1000)]

/-- Witness for C4: an opening at tick 40000 arms the timer for 42000, and
the opened state at 50000 is closed once the timer service acts at 52000. -/
theorem C4_valve_closed_by_deadline_witness :
    (rearmState.valveOpen = false ∧
     (Controller.updateControl 40000 400 21 45 1000 rearmState).valveOpen = true ∧
     (Controller.updateControl 40000 400 21 45 1000 rearmState).valveTimer
       = some (40000 + VALVE_TIMER_PERIOD_MS)) ∧
    (openedState.valveOpen = true ∧
     openedState.valveTimer = some (50000 + VALVE_TIMER_PERIOD_MS) ∧
     (∀ te ∈ openedEvents, 50000 ≤ te.1 ∧ te.1 ≤ 50000 + VALVE_TIMER_PERIOD_MS) ∧
     (Controller.fireIfArmed (50000 + VALVE_TIMER_PERIOD_MS)
       (Controller.run openedEvents openedState)).valveOpen = false) :=
  ⟨⟨rfl, by decide,
    C4_valve_closed_by_deadline.1 40000 400 21 45 1000 rearmState rfl (by decide)⟩,
   ⟨rfl, rfl, by decide,
    C4_valve_closed_by_deadline.2 50000 openedEvents openedState rfl rfl
      (by decide)⟩⟩

/-- Helper: `find?` over `range n` returns the least index satisfying the
predicate. -/
theorem find?_range_first (p : ℕ → Bool) (n i : ℕ)
    (h : (List.range n).find? p = some i) :
    p i = true ∧ i < n ∧ ∀ j < i, p j = false := by
  refine ⟨List.find?_some h, List.mem_range.mp (List.mem_of_find?_eq_some h), ?_⟩
  induction n with
  | zero => simp at h
  | succ n ih =>
      rw [List.range_succ, List.find?_append] at h
      cases hfn : (List.range n).find? p with
      | some k =>
          rw [hfn] at h
          simp at h
          subst h
          exact ih hfn
      | none =>
          rw [hfn] at h
          simp at h
          obtain ⟨hp, hi⟩ := h
          intro j hj
          have hall := List.find?_eq_none.mp hfn
          have hmem : j ∈ List.range n := List.mem_range.mpr (by omega)
          simpa using hall j hmem

/-- C8: the CO₂ reader makes at most 10 attempts; every executed attempt reads
the raw measurement register regardless of the status flags; a reading is
accepted exactly on the first attempt whose device status and CO₂ status are
both zero; and when all 10 attempts fail, the stored `co2ppm_` is unchanged
and `readSensor` reports failure. -/
theorem C8_co2_reader_retry_contract (regs : ℕ → CO2Sensor.Attempt) (prev : ℚ) :
    CO2Sensor.attemptsMade regs ≤ CO2Sensor.maxAttempts ∧
    (∀ i, i < CO2Sensor.attemptsMade regs →
      CO2Sensor.RegRead.raw (regs i).raw ∈ CO2Sensor.readTrace regs) ∧
    (∀ i, CO2Sensor.firstOK regs = some i →
      CO2Sensor.attemptOK (regs i) = true ∧
      (∀ j < i, CO2Sensor.attemptOK (regs j) = false) ∧
      CO2Sensor.readSensor regs prev = (true, ((regs i).raw : ℚ))) ∧
    (CO2Sensor.firstOK regs = none ↔
      ∀ i, i < CO2Sensor.maxAttempts → CO2Sensor.attemptOK (regs i) = false) ∧
    (CO2Sensor.firstOK regs = none →
      CO2Sensor.readSensor regs prev = (false, prev)) := by
  refine ⟨?_, ?_, ?_, ?_, ?_⟩
  · unfold CO2Sensor.attemptsMade
    cases hf : CO2Sensor.firstOK regs with
    | none => exact le_refl _
    | some i =>
        have := (find?_range_first _ _ _ hf).2.1
        show i + 1 ≤ CO2Sensor.maxAttempts
        omega
  · intro i hi
    simp only [CO2Sensor.readTrace, List.mem_flatMap]
    exact ⟨i, List.mem_range.mpr hi, by simp⟩
  · intro i hf
    obtain ⟨hp, _, hmin⟩ := find?_range_first _ _ _ hf
    refine ⟨hp, hmin, ?_⟩
    unfold CO2Sensor.readSensor
    rw [hf]
  · unfold CO2Sensor.firstOK
    rw [List.find?_eq_none]
    constructor
    · intro hall i hi
      have := hall i (List.mem_range.mpr hi)
      simpa using this
    · intro hall x hx
      simp [hall x (List.mem_range.mp hx)]
  · intro hf
    unfold CO2Sensor.readSensor
    rw [hf]

/-- Register values that fail every attempt (device status stuck at 1). -/
def regsAllBad : ℕ → CO2Sensor.Attempt := fun i => ⟨1, 0, 350 + i⟩

/-- Register values whose first three attempts fail (CO₂ status 7) and whose
fourth attempt reads clean with raw value 987. -/
def regsOKAt3 : ℕ → CO2Sensor.Attempt :=
  fun i => if i < 3 then ⟨0, 7, 100 + i⟩ else ⟨0, 0, 987⟩

/-- Witness for C8: with permanently bad status the stored value 720 is kept
and failure is reported; with a clean fourth attempt the raw value of that
attempt is accepted, and the raw register of the (failing) third attempt was
still read. -/
theorem C8_co2_reader_retry_contract_witness :
    CO2Sensor.firstOK regsAllBad = none ∧
    CO2Sensor.readSensor regsAllBad 720 = (false, 720) ∧
    CO2Sensor.firstOK regsOKAt3 = some 3 ∧
    (CO2Sensor.attemptOK (regsOKAt3 3) = true ∧
     (∀ j < 3, CO2Sensor.attemptOK (regsOKAt3 j) = false) ∧
     CO2Sensor.readSensor regsOKAt3 720 = (true, ((regsOKAt3 3).raw : ℚ))) ∧
    (2 < CO2Sensor.attemptsMade regsOKAt3 ∧
     CO2Sensor.RegRead.raw (regsOKAt3 2).raw ∈ CO2Sensor.readTrace regsOKAt3) :=
  ⟨by decide,
   (C8_co2_reader_retry_contract regsAllBad 720).2.2.2.2 (by decide),
   by decide,
   (C8_co2_reader_retry_contract regsOKAt3 720).2.2.1 3 (by decide),
   ⟨by decide,
    (C8_co2_reader_retry_contract regsOKAt3 720).2.1 2 (by decide)⟩⟩
